import Mathlib

/-
Verification of the versioned module registry, bridge dispatcher, property
descriptor and wrapper modules of this repository.

Sections whose code is present under the repository sources are embedded
directly from the source files (RNBranchProperty, PermissionsRequester,
StyleSheet.compose, CollectionReference.add).  Components that the design
document describes but whose implementation is not among the sampled
sources (module registry, pending requests, descriptor application,
subscription teardown) are modelled from the design document, as noted on
each definition.
-/

namespace Spec2Proof

/-! ## Module registry (namespaces, registration, resolution) -/

/-- Modelled from the spec: the error taxonomy of the registry layer.
The implementation of the registry is not among the sampled sources; the
design document (sections 4.1, 4.2 and 7) fixes the error kinds
DuplicateModule and ModuleNotFound used here. -/
inductive RegError
  | DuplicateModule
  | ModuleNotFound
deriving DecidableEq, Repr

/-- Modelled from the spec: a ModuleDescriptor carries a logical name, its
version namespace and a concrete implementation handle (section 3 of the
design document).  The implementation handle is abstracted as a number. -/
structure ModuleDescriptor where
  name : String
  ns : String
  impl : Nat
deriving DecidableEq, Repr

/-- Modelled from the spec: the registry is a finite map from
(namespace, name) pairs to descriptors, represented as an association
list.  Registration order is newest first. -/
def Registry : Type := List ((String × String) × ModuleDescriptor)

instance : Membership (((String × String) × ModuleDescriptor)) Registry :=
  inferInstanceAs (Membership _ (List _))

instance : DecidableEq Registry :=
  inferInstanceAs (DecidableEq (List _))

/-- Association-list lookup keyed by the (namespace, name) pair. -/
def findEntry : Registry → (String × String) → Option ModuleDescriptor
  | [], _ => none
  | (k, d) :: rest, key => if k = key then some d else findEntry rest key

/-- Modelled from the spec: register(namespace, name, descriptor) fails
with DuplicateModule when the key is already present and otherwise adds
the entry (section 4.2).  The registry is threaded explicitly; on failure
it is returned unchanged. -/
def register (r : Registry) (ns name : String) (d : ModuleDescriptor) :
    Option RegError × Registry :=
  match findEntry r (ns, name) with
  | some _ => (some RegError.DuplicateModule, r)
  | none => (none, ((ns, name), d) :: r)

/-- Modelled from the spec: resolve(namespace, name) returns the
descriptor registered under exactly that pair and fails with
ModuleNotFound when the pair is absent (section 4.2); there is no
fallback to any other namespace. -/
def resolve (r : Registry) (ns name : String) : Except RegError ModuleDescriptor :=
  match findEntry r (ns, name) with
  | some d => Except.ok d
  | none => Except.error RegError.ModuleNotFound

/-- A concrete descriptor for the example scenario of the design
document: module Settings registered in namespace V1 only. -/
def dSettings : ModuleDescriptor := ⟨"Settings", "V1", 100⟩

/-- A second descriptor used to attempt a duplicate registration. -/
def dOther : ModuleDescriptor := ⟨"Settings", "V1", 200⟩

/-- The example registry: only (V1, Settings) is registered. -/
def regEx : Registry := [(("V1", "Settings"), dSettings)]

/-! ## Pending requests (bridge dispatcher completion slots) -/

/-- Modelled from the spec: the completion of a bridge call is exactly one
of a result value or an error (sections 3 and 4.3 of the design
document); values and error payloads are abstracted as numbers. -/
inductive Outcome
  | result (value : Nat)
  | err (code : Nat)
deriving DecidableEq, Repr

/-- Modelled from the spec: a PendingRequest is an in-flight bridge call
with a request id and a completion slot that starts empty and is
satisfied exactly once (section 3 of the design document). -/
structure PendingRequest where
  id : Nat
  slot : Option Outcome
deriving DecidableEq, Repr

/-- A freshly created pending request with an empty completion slot. -/
def mkPending (i : Nat) : PendingRequest := ⟨i, none⟩

/-- Modelled from the spec: a completion attempt by some native thread.
The completion slot is the synchronization point: the first attempt fills
it and every later attempt finds it filled and is dropped, giving
at-most-once delivery (section 5 of the design document). -/
def complete (p : PendingRequest) (o : Outcome) : PendingRequest :=
  match p.slot with
  | some _ => p
  | none => { p with slot := some o }

/-- The effect of a sequence of completion attempts, in the order the
native threads reach the slot. -/
def deliverAll (p : PendingRequest) (os : List Outcome) : PendingRequest :=
  os.foldl complete p

/-! ## Property descriptor application -/

/-- Modelled from the spec: the runtime type tags a configuration value
can carry at the bridge boundary (section 6 of the design document). -/
inductive ValueType
  | stringType
  | numberType
  | boolType
deriving DecidableEq, Repr

/-- Modelled from the spec: a configuration value of one of the bridge
primitive types. -/
inductive Value
  | str (s : String)
  | num (n : Int)
  | bool (b : Bool)
deriving DecidableEq, Repr

/-- The runtime type of a value. -/
def Value.typeOf : Value → ValueType
  | Value.str _ => ValueType.stringType
  | Value.num _ => ValueType.numberType
  | Value.bool _ => ValueType.boolType

/-- Modelled from the spec: a property descriptor for configuration
application is a setter binding plus an expected value type (sections 3
and 4.4 of the design document).  Setter bindings are abstracted as
numbers naming the selector. -/
structure PropertyDescriptor where
  setterSelector : Nat
  type : ValueType
deriving DecidableEq, Repr

/-- A native target object: its settable fields, keyed by the setter
selector that writes them.  A target exposes a setter exactly when the
corresponding field is present. -/
structure TargetObject where
  fields : List (Nat × Value)
deriving DecidableEq, Repr

/-- Whether a field list contains a field for a selector. -/
def hasField : List (Nat × Value) → Nat → Bool
  | [], _ => false
  | (k, _) :: rest, sel => k == sel || hasField rest sel

/-- Write a value through a selector, leaving other fields unchanged. -/
def setField : List (Nat × Value) → Nat → Value → List (Nat × Value)
  | [], _, _ => []
  | (k, v) :: rest, sel, nv =>
    if k == sel then (k, nv) :: rest else (k, v) :: setField rest sel nv

/-- The error kinds of descriptor application (section 4.4 of the design
document). -/
inductive ApplyError
  | TypeMismatch
  | InvalidTarget
deriving DecidableEq, Repr

/-- Modelled from the spec: apply(descriptor, target, value) fails with
TypeMismatch when the value has the wrong runtime type and with
InvalidTarget when the target does not expose the bound setter, and only
otherwise writes the field (section 4.4 of the design document).  The
target is threaded explicitly; on failure it is returned unchanged. -/
def apply (d : PropertyDescriptor) (t : TargetObject) (v : Value) :
    Option ApplyError × TargetObject :=
  if v.typeOf ≠ d.type then (some ApplyError.TypeMismatch, t)
  else if hasField t.fields d.setterSelector = false then
    (some ApplyError.InvalidTarget, t)
  else (none, ⟨setField t.fields d.setterSelector v⟩)

/-! ## RNBranchProperty (from the Objective-C source, unnamed part 001) -/

/-- The property class of the versioned Branch module: a setter selector
and an expected class, with the Objective-C object identity kept as a
separate field so that equality independent of identity can be stated.
Selector and class identities are abstracted as numbers. -/
structure RNBranchProperty where
  objectId : Nat
  setterSelector : Nat
  type : Nat
deriving DecidableEq, Repr

/-- An Objective-C id argument: either an RNBranchProperty instance or an
object of some other class. -/
inductive ObjCId
  | prop (p : RNBranchProperty)
  | other (tag : Nat)
deriving DecidableEq, Repr

/-- The isEqual method of RNBranchProperty: objects of another class are
never equal; two property instances are compared by their
(setterSelector, type) pair only. -/
def RNBranchProperty.isEqual (a : RNBranchProperty) : ObjCId → Bool
  | ObjCId.prop b => a.setterSelector == b.setterSelector && a.type == b.type
  | ObjCId.other _ => false

/-- The designated initializer initWithSetterSelector:type: stores the
selector and the type on a freshly allocated instance (the allocation
identity is the oid argument). -/
def initWithSetterSelectorType (oid selector ty : Nat) :
    Except String RNBranchProperty :=
  Except.ok ⟨oid, selector, ty⟩

/-- The convenience constructor propertyWithSetterSelector:type:, which
allocates and calls the designated initializer. -/
def propertyWithSetterSelectorType (oid selector ty : Nat) :
    Except String RNBranchProperty :=
  initWithSetterSelectorType oid selector ty

/-- The overridden default initializer init, whose body is a throw: it
raises and never produces an instance. -/
def initDefault : Except String RNBranchProperty :=
  Except.error "default construction of RNBranchProperty throws"

/-! ## Subscription teardown (listener cancellation) -/

/-- Modelled from the spec: the events that can reach a subscription, in
the order the dispatcher linearizes them: delivery of a queued callback
(identified by a number) or the acknowledgement of a cancellation
(sections 5 and 9 of the design document; the teardown call site is
componentWillUnmount in ScreenOrientationScreen.js). -/
inductive SubEv
  | deliver (cb : Nat)
  | cancel
deriving DecidableEq, Repr

/-- Modelled from the spec: processing of a subscription event trace.
The cancellation token is checked atomically at delivery time: a deliver
event emits its callback only while the subscription is not cancelled,
and a cancel event sets the token forever.  The result is the list of
callbacks actually delivered, in order. -/
def runSub (cancelled : Bool) : List SubEv → List Nat
  | [] => []
  | SubEv.deliver cb :: rest =>
    if cancelled then runSub cancelled rest else cb :: runSub cancelled rest
  | SubEv.cancel :: rest => runSub true rest

/-- The cancellation token after processing a trace. -/
def finalCancelled (cancelled : Bool) : List SubEv → Bool
  | [] => cancelled
  | SubEv.deliver _ :: rest => finalCancelled cancelled rest
  | SubEv.cancel :: rest => finalCancelled true rest

/-! ## PermissionsRequester (from the Java source) -/

/-- The slice of the unimodules ModuleRegistry that PermissionsRequester
consults: getModule(PermissionsManager.class), which may be absent.
Manager and listener handles are abstracted as numbers. -/
structure ModuleRegistry where
  permissionsManager : Option Nat
deriving DecidableEq, Repr

/-- The PermissionsRequester state: the manager obtained from the module
registry at construction time. -/
structure PermissionsRequester where
  mPermissionManager : Option Nat
deriving DecidableEq, Repr

/-- The PermissionsRequester constructor: it captures
moduleRegistry.getModule(PermissionsManager.class). -/
def PermissionsRequester.ofRegistry (mr : ModuleRegistry) : PermissionsRequester :=
  ⟨mr.permissionsManager⟩

/-- The fixed request code PERMISSIONS_REQUEST. -/
def PERMISSIONS_REQUEST : Nat := 13

/-- A record of one requestPermissions call observed by a manager. -/
structure PermissionRequest where
  manager : Nat
  permissions : List String
  requestCode : Nat
  listener : Nat
deriving DecidableEq, Repr

/-- askForPermissions: when a manager is present it forwards the
permissions, the fixed request code and the listener to
requestPermissions and returns true; otherwise it issues nothing and
returns false.  The second component records the issued requests. -/
def askForPermissions (pr : PermissionsRequester) (permissions : List String)
    (listener : Nat) : Bool × List PermissionRequest :=
  match pr.mPermissionManager with
  | some m => (true, [⟨m, permissions, PERMISSIONS_REQUEST, listener⟩])
  | none => (false, [])

/-! ## StyleSheet.compose (from the JavaScript source, unnamed part 002) -/

/-- A JavaScript style prop value as compose sees it: null, undefined, a
registered style id, a style object, or an array of style props. -/
inductive StyleProp
  | nullv
  | undef
  | reg (id : Nat)
  | obj (id : Nat)
  | arr (xs : List StyleProp)
deriving Repr

/-- The JavaScript loose comparison against null: style != null is false
exactly for null and undefined. -/
def StyleProp.isNonNull : StyleProp → Bool
  | StyleProp.nullv => false
  | StyleProp.undef => false
  | _ => true

/-- StyleSheet.compose: when both operands are non-null it returns the
fresh two-element array of them; otherwise it returns style1 when
style1 is non-null and style2 otherwise. -/
def compose (style1 style2 : StyleProp) : StyleProp :=
  if style1.isNonNull && style2.isNonNull then StyleProp.arr [style1, style2]
  else if style1.isNonNull then style1 else style2

/-! ## CollectionReference.add (from the TypeScript source) -/

/-- A firestore path, as the list of its segments. -/
abbrev FsPath : Type := List String

/-- Path.child appends one segment. -/
def FsPath.child (p : FsPath) (seg : String) : FsPath := p ++ [seg]

/-- Path.isDocument: a path addresses a document when it has an even,
positive number of segments (collection and document segments
alternate). -/
def FsPath.isDocument (p : FsPath) : Bool :=
  decide (0 < p.length) && p.length % 2 == 0

/-- A DocumentReference, reduced to the path it addresses. -/
structure DocumentReference where
  path : FsPath
deriving DecidableEq

/-- A CollectionReference, reduced to its collection path. -/
structure CollectionReference where
  collectionPath : FsPath
deriving DecidableEq

/-- The document store: the writes performed, newest first. -/
def Store : Type := List (FsPath × Nat)

instance : DecidableEq Store := inferInstanceAs (DecidableEq (List _))

/-- DocumentReference.set(data) writes data at the path of the
reference.  Document data is abstracted as a number. -/
def DocumentReference.set (d : DocumentReference) (data : Nat) (st : Store) :
    Store :=
  (d.path, data) :: st

/-- CollectionReference.doc(documentPath?): the new segment is the given
path unless it is absent or falsy (the empty string), in which case a
fresh auto-generated id is used; the child path must address a document
or the invariant fails. -/
def CollectionReference.doc (c : CollectionReference)
    (documentPath : Option String) (autoId : String) :
    Except String DocumentReference :=
  let newPath :=
    match documentPath with
    | some s => if s = "" then autoId else s
    | none => autoId
  let path := c.collectionPath.child newPath
  if path.isDocument then Except.ok ⟨path⟩
  else Except.error "Argument documentPath must point to a document."

/-- CollectionReference.add(data): create a reference via doc() with no
argument, perform set(data) on it, and resolve with that same
reference.  The auto-generated id is passed in explicitly; the store is
threaded. -/
def CollectionReference.add (c : CollectionReference) (data : Nat)
    (autoId : String) (st : Store) :
    Except String (DocumentReference × Store) := do
  let documentRef ← c.doc none autoId
  let st2 := documentRef.set data st
  return (documentRef, st2)

/-! ## Lemmas about the registry -/

theorem findEntry_mem {r : Registry} {key : String × String}
    {d : ModuleDescriptor} (h : findEntry r key = some d) : (key, d) ∈ r := by
  induction r with
  | nil => simp [findEntry] at h
  | cons hd tl ih =>
    obtain ⟨k, d0⟩ := hd
    by_cases hk : k = key
    · subst hk
      simp [findEntry] at h
      subst h
      exact List.mem_cons_self _ _
    · simp [findEntry, hk] at h
      exact List.mem_cons_of_mem _ (ih h)

/-- Claim C1: resolving (N1, name) either fails with ModuleNotFound or
returns a descriptor whose registration entry is keyed by (N1, name)
itself; it never falls back to a registration under another namespace. -/
theorem resolve_no_cross_namespace (r : Registry) (ns1 name : String) :
    resolve r ns1 name = Except.error RegError.ModuleNotFound ∨
    ∃ d, resolve r ns1 name = Except.ok d ∧ ((ns1, name), d) ∈ r := by
  unfold resolve
  cases hf : findEntry r (ns1, name) with
  | none => exact Or.inl rfl
  | some d => exact Or.inr ⟨d, rfl, findEntry_mem hf⟩

/-- Claim C3: registering a (namespace, name) pair that is already
registered fails with DuplicateModule, and the registry returned still
maps that pair to the originally registered descriptor. -/
theorem register_duplicate (r : Registry) (ns name : String)
    (d dNew : ModuleDescriptor) (h : findEntry r (ns, name) = some d) :
    (register r ns name dNew).1 = some RegError.DuplicateModule ∧
    findEntry (register r ns name dNew).2 (ns, name) = some d := by
  unfold register
  rw [h]
  exact ⟨rfl, h⟩

/-- Witness for claim C3 at the example registry: re-registering
(V1, Settings) fails and the original descriptor survives. -/
theorem register_duplicate_witness :
    (register regEx "V1" "Settings" dOther).1 = some RegError.DuplicateModule ∧
    findEntry (register regEx "V1" "Settings" dOther).2 ("V1", "Settings") =
      some dSettings :=
  register_duplicate regEx "V1" "Settings" dSettings dOther (by decide)

/-! ## Lemmas about pending requests -/

theorem deliverAll_slot_some {p : PendingRequest} {o : Outcome}
    (h : p.slot = some o) (os : List Outcome) :
    (deliverAll p os).slot = some o := by
  induction os generalizing p with
  | nil => exact h
  | cons x xs ih =>
    have hc : complete p x = p := by
      unfold complete
      rw [h]
    show (deliverAll (complete p x) xs).slot = some o
    rw [hc]
    exact ih h

/-- Claim C2: for a pending request, whichever completion attempt reaches
the empty slot first fills it, and every later attempt leaves the slot
unchanged, so exactly one outcome (result or error) is delivered, at most
once, for any order of completing threads. -/
theorem pendingRequest_exactly_once (i : Nat) (o : Outcome) (os : List Outcome) :
    (deliverAll (mkPending i) (o :: os)).slot = some o := by
  have hfirst : complete (mkPending i) o = ⟨i, some o⟩ := rfl
  show (deliverAll (complete (mkPending i) o) os).slot = some o
  rw [hfirst]
  exact deliverAll_slot_some rfl os

/-! ## Theorems about property descriptor application -/

/-- Claim C4: applying a descriptor to a value of the wrong runtime type
returns TypeMismatch and returns the target with no field changed. -/
theorem apply_typeMismatch (d : PropertyDescriptor) (t : TargetObject)
    (v : Value) (h : v.typeOf ≠ d.type) :
    apply d t v = (some ApplyError.TypeMismatch, t) := by
  unfold apply
  simp [h]

/-- Witness for claim C4: a string value against a number-typed
descriptor is rejected and the target is returned unchanged. -/
theorem apply_typeMismatch_witness :
    apply ⟨0, ValueType.numberType⟩ ⟨[(0, Value.num 7)]⟩ (Value.str "x") =
      (some ApplyError.TypeMismatch, ⟨[(0, Value.num 7)]⟩) :=
  apply_typeMismatch ⟨0, ValueType.numberType⟩ ⟨[(0, Value.num 7)]⟩
    (Value.str "x") (by decide)

/-! ## Theorems about RNBranchProperty -/

/-- Claim C5: isEqual on two property descriptors holds exactly when
their setter selectors and types agree, and in particular two instances
with different object identities but the same setter and type compare
equal. -/
theorem isEqual_by_setter_type :
    (∀ a b : RNBranchProperty,
      a.isEqual (ObjCId.prop b) = true ↔
        a.setterSelector = b.setterSelector ∧ a.type = b.type) ∧
    (∀ s t i1 i2 : Nat,
      RNBranchProperty.isEqual ⟨i1, s, t⟩ (ObjCId.prop ⟨i2, s, t⟩) = true) := by
  constructor
  · intro a b
    simp [RNBranchProperty.isEqual]
  · intro s t i1 i2
    simp [RNBranchProperty.isEqual]

/-- Claim C6: the default initializer of RNBranchProperty throws and
never yields a usable descriptor, while construction with an explicit
setter selector and type succeeds and stores exactly those. -/
theorem initDefault_neverUsable :
    initDefault.toOption = none ∧
    (∀ oid selector ty : Nat,
      (initWithSetterSelectorType oid selector ty).toOption =
        some ⟨oid, selector, ty⟩ ∧
      (propertyWithSetterSelectorType oid selector ty).toOption =
        some ⟨oid, selector, ty⟩) :=
  ⟨rfl, fun _ _ _ => ⟨rfl, rfl⟩⟩

/-! ## Lemmas about subscription teardown -/

theorem runSub_cancelled_nil (evs : List SubEv) : runSub true evs = [] := by
  induction evs with
  | nil => rfl
  | cons e rest ih =>
    cases e with
    | deliver cb => simp [runSub, ih]
    | cancel => simp [runSub, ih]

theorem runSub_append (c : Bool) (xs ys : List SubEv) :
    runSub c (xs ++ ys) = runSub c xs ++ runSub (finalCancelled c xs) ys := by
  induction xs generalizing c with
  | nil => rfl
  | cons e rest ih =>
    cases e with
    | deliver cb =>
      by_cases hc : c = true
      · subst hc
        simp [runSub, finalCancelled, ih]
      · replace hc : c = false := by
          cases c
          · rfl
          · exact absurd rfl hc
        subst hc
        simp [runSub, finalCancelled, ih]
    | cancel =>
      simp [runSub, finalCancelled, ih]

/-- Claim C7: in every interleaving of subscription events, nothing is
delivered after the cancellation is acknowledged: the delivered
callbacks of a trace that contains a cancel event are exactly those
delivered before it. -/
theorem cancel_stops_delivery (c : Bool) (pre post : List SubEv) :
    runSub c (pre ++ SubEv.cancel :: post) = runSub c pre := by
  rw [runSub_append]
  simp [runSub, runSub_cancelled_nil]

/-! ## Theorems about PermissionsRequester -/

/-- Claim C8: askForPermissions returns false and issues no request when
the module registry supplied no PermissionsManager at construction time,
and otherwise forwards exactly the permissions, request code 13 and the
listener to the manager and returns true. -/
theorem askForPermissions_spec :
    (∀ (perms : List String) (listener : Nat),
      askForPermissions (PermissionsRequester.ofRegistry ⟨none⟩) perms listener =
        (false, [])) ∧
    (∀ (m : Nat) (perms : List String) (listener : Nat),
      askForPermissions (PermissionsRequester.ofRegistry ⟨some m⟩) perms listener =
        (true, [⟨m, perms, 13, listener⟩])) :=
  ⟨fun _ _ => rfl, fun _ _ _ => rfl⟩

/-! ## Theorems about StyleSheet.compose -/

/-- Claim C9: compose returns the two-element array of its operands when
both are non-null, returns the non-null operand itself when exactly one
is non-null, and returns the second (nullish) operand when the first is
nullish, never building an array unless both operands are non-null. -/
theorem compose_spec (style1 style2 : StyleProp) :
    (style1.isNonNull = true → style2.isNonNull = true →
      compose style1 style2 = StyleProp.arr [style1, style2]) ∧
    (style1.isNonNull = true → style2.isNonNull = false →
      compose style1 style2 = style1) ∧
    (style1.isNonNull = false → compose style1 style2 = style2) := by
  refine ⟨?_, ?_, ?_⟩
  · intro h1 h2
    simp [compose, h1, h2]
  · intro h1 h2
    simp [compose, h1, h2]
  · intro h1
    simp [compose, h1]

/-- Witness for claim C9 at concrete style props covering the three
cases. -/
theorem compose_spec_witness :
    compose (StyleProp.reg 0) (StyleProp.reg 1) =
      StyleProp.arr [StyleProp.reg 0, StyleProp.reg 1] ∧
    compose (StyleProp.reg 0) StyleProp.nullv = StyleProp.reg 0 ∧
    compose StyleProp.nullv StyleProp.undef = StyleProp.undef :=
  ⟨(compose_spec (StyleProp.reg 0) (StyleProp.reg 1)).1 rfl rfl,
   (compose_spec (StyleProp.reg 0) StyleProp.nullv).2.1 rfl rfl,
   (compose_spec StyleProp.nullv StyleProp.undef).2.2 rfl⟩

/-! ## Theorems about CollectionReference.add -/

/-- Claim C10: on a collection path (odd segment count), add creates the
reference for the child path with the auto-generated id, writes the data
at exactly that path, resolves with that same reference, and the parent
of the new path is the unchanged collection path. -/
theorem add_spec (c : CollectionReference) (data : Nat) (autoId : String)
    (st : Store) (h : c.collectionPath.length % 2 = 1) :
    CollectionReference.add c data autoId st =
      Except.ok (⟨c.collectionPath.child autoId⟩,
        (c.collectionPath.child autoId, data) :: st) ∧
    (c.collectionPath.child autoId).dropLast = c.collectionPath := by
  have hdoc : (c.collectionPath.child autoId).isDocument = true := by
    simp only [FsPath.isDocument, FsPath.child, List.length_append,
      List.length_singleton, Bool.and_eq_true, decide_eq_true_iff, beq_iff_eq]
    omega
  constructor
  · simp [CollectionReference.add, CollectionReference.doc, hdoc,
      DocumentReference.set]
  · simp [FsPath.child]

/-- Witness for claim C10: adding to the users collection with a
concrete auto id writes the document and resolves with its reference. -/
theorem add_spec_witness :
    CollectionReference.add ⟨["users"]⟩ 5 "abc123" [] =
      Except.ok (⟨["users", "abc123"]⟩, [(["users", "abc123"], 5)]) ∧
    (FsPath.child ["users"] "abc123").dropLast = ["users"] :=
  add_spec ⟨["users"]⟩ 5 "abc123" [] (by decide)

end Spec2Proof
